import Mathlib

/-!
Shallow embedding of `src/ftd-bin/src/main.rs` (FreeTomateDriver): a USB
tablet driver that discovers a device, parses its configuration descriptor
into an interface topology, claims interfaces 0, 1, 2 (detaching kernel
drivers), sends a vendor handshake control transfer, polls interrupt
endpoints of interfaces 1 and 2, and reattaches kernel drivers in a `Drop`
implementation.

The transport (rusb/libusb) is modelled as an abstract kernel/claim state
plus result oracles; machine integers are `Nat`; fallible operations return
`Except`.  The `while` loop of `main` is embedded with explicit fuel, and
the externally flipped cancellation flag as a `Nat → Bool` giving the value
observed at each iteration's check.
-/

set_option autoImplicit false

namespace FreeTomate

/-- rusb transfer errors, as matched by the code: `rusb::Error::Timeout`
versus every other error (`code` distinguishes concrete other errors). -/
inductive UsbErr
  | timeout
  | other (code : Nat)
deriving DecidableEq, Repr

/-! ## Descriptor data model (rusb descriptor views used by `open_device`)

An endpoint descriptor carries `bEndpointAddress`; rusb derives
`direction()` from bit 7 of that address (`LIBUSB_ENDPOINT_DIR_MASK`), and
`address()` returns the full byte, so the code's `endpoint.direction()`
test is a function of `endpoint.address()`. -/

structure EndpointDescriptor where
  address : Nat
deriving DecidableEq, Repr

/-- rusb `EndpointDescriptor::direction() == Direction::In`: bit 7 of
`bEndpointAddress`. -/
def EndpointDescriptor.isIn (e : EndpointDescriptor) : Bool :=
  e.address.testBit 7

/-- One rusb `InterfaceDescriptor` (an alternate setting) as consumed by
the inner `int.descriptors()` loop of `open_device`: its endpoint list. -/
structure AltSetting where
  endpoints : List EndpointDescriptor
deriving DecidableEq, Repr

/-- One rusb `Interface` group from `config_descriptor.interfaces()`: an
interface number together with its alternate-setting descriptors. -/
structure ConfigInterface where
  number : Nat
  descriptors : List AltSetting
deriving DecidableEq, Repr

/-- The `InterfaceInfo` struct of the source. -/
structure InterfaceInfo where
  number : Nat
  endpoints_in : List Nat
  endpoints_out : List Nat
deriving DecidableEq, Repr

/-! ## The `interfaces` HashMap

`HashMap::insert` overwrites the previous value for a key.  We model the
map as a list of insertions, newest first, so lookup returns the most
recent insert for a key. -/

abbrev IfaceMap := List (Nat × InterfaceInfo)

/-- `HashMap::insert`: the new binding shadows older ones. -/
def mapInsert (m : IfaceMap) (k : Nat) (v : InterfaceInfo) : IfaceMap :=
  (k, v) :: m

/-- `HashMap::get`: the most recent binding for `k`, if any. -/
def mapLookup : IfaceMap → Nat → Option InterfaceInfo
  | [], _ => none
  | (k, v) :: rest, k0 => if k = k0 then some v else mapLookup rest k0

/-- Inner endpoint loop of `open_device`: classify the endpoints of one
alternate-setting descriptor into `endpoints_in` / `endpoints_out` in
declaration order (`direction() == In` pushes to `endpoints_in`,
`direction() == Out` to `endpoints_out`). -/
def classifyEndpoints : List EndpointDescriptor → List Nat × List Nat
  | [] => ([], [])
  | e :: rest =>
    let r := classifyEndpoints rest
    if e.isIn then (e.address :: r.1, r.2) else (r.1, e.address :: r.2)

/-- Middle loop of `open_device`: for each descriptor (alternate setting)
of interface `number`, build an `InterfaceInfo` and insert it under
`number` (each later descriptor overwrites the previous insert). -/
def insertDescriptors (number : Nat) (m : IfaceMap) : List AltSetting → IfaceMap
  | [] => m
  | d :: rest =>
    let c := classifyEndpoints d.endpoints
    insertDescriptors number (mapInsert m number ⟨number, c.1, c.2⟩) rest

/-- Outer loop of `open_device` over `config_descriptor.interfaces()`. -/
def buildTopology (m : IfaceMap) : List ConfigInterface → IfaceMap
  | [] => m
  | iface :: rest => buildTopology (insertDescriptors iface.number m iface.descriptors) rest

/-- The `interfaces` map constructed by `open_device` from the active
configuration descriptor. -/
def openDeviceTopology (cfg : List ConfigInterface) : IfaceMap :=
  buildTopology [] cfg

/-- The last alternate-setting descriptor of a list (defaulting to an
empty one), i.e. the one whose insert survives in the map. -/
def lastSetting : List AltSetting → AltSetting
  | [] => ⟨[]⟩
  | [d] => d
  | _ :: d :: rest => lastSetting (d :: rest)

/-- The `InterfaceInfo` produced for the final alternate-setting descriptor
of a descriptor list (the insert that survives in the map). -/
def lastInfo (number : Nat) (ds : List AltSetting) : InterfaceInfo :=
  let c := classifyEndpoints (lastSetting ds).endpoints
  ⟨number, c.1, c.2⟩

/-! ## Kernel driver / claim state and the lifecycle primitives

The rusb handle operations used by `claim_interfaces` and `Drop` are
modelled over an abstract per-interface state: whether a kernel driver is
currently attached and whether we hold a claim.  The `…Fails` oracles
inject transport failures for the fallible calls. -/

@[ext]
structure KernelState where
  kernelActive : Nat → Bool
  claimed : Nat → Bool
  queryFails : Nat → Bool
  detachFails : Nat → Bool
  claimFails : Nat → Bool

/-- `DeviceHandle::kernel_driver_active`. -/
def kernelDriverActive (s : KernelState) (i : Nat) : Except UsbErr Bool :=
  if s.queryFails i then .error (.other 1) else .ok (s.kernelActive i)

/-- State after a successful `detach_kernel_driver i`. -/
def detachedState (s : KernelState) (i : Nat) : KernelState :=
  { s with kernelActive := fun j => if j = i then false else s.kernelActive j }

/-- State after a successful `claim_interface i`. -/
def claimedState (s : KernelState) (i : Nat) : KernelState :=
  { s with claimed := fun j => if j = i then true else s.claimed j }

/-- `DeviceHandle::attach_kernel_driver`: fails (busy) while we hold a
claim on the interface, otherwise reattaches the kernel driver. -/
def attachKernelDriver (s : KernelState) (i : Nat) : Except UsbErr KernelState :=
  if s.claimed i then .error (.other 4)
  else .ok { s with kernelActive := fun j => if j = i then true else s.kernelActive j }

/-- Operations issued against the handle by `claim_interfaces`, recorded as
an instrumentation trace (the source performs them for their kernel-state
effect and returns `Result<()>`). -/
inductive COp
  | query (i : Nat)
  | detach (i : Nat)
  | claim (i : Nat)
deriving DecidableEq, Repr

/-- One iteration of the `claim_interfaces` loop for interface `i`,
mirroring the source's chain of `?` operators with each branch of the two
fallible primitives unfolded:
`if kernel_driver_active(i)? { detach_kernel_driver(i)?; } claim_interface(i)?`.
Returns the trace of handle calls made, the resulting kernel state, and
the error that aborted the chain, if any. -/
def claimOne (s : KernelState) (i : Nat) : List COp × KernelState × Option UsbErr :=
  if s.queryFails i then ([.query i], s, some (.other 1))
  else if s.kernelActive i then
    if s.detachFails i then ([.query i, .detach i], s, some (.other 2))
    else if s.claimFails i then
      ([.query i, .detach i, .claim i], detachedState s i, some (.other 3))
    else ([.query i, .detach i, .claim i], claimedState (detachedState s i) i, none)
  else
    if s.claimFails i then ([.query i, .claim i], s, some (.other 3))
    else ([.query i, .claim i], claimedState s i, none)

/-- The `claim_interfaces` loop: process the caller-supplied interface
numbers in order; the first failing handle call aborts the whole function
(`?`), leaving the kernel-state effects of the completed iterations in
place. -/
def claimInterfacesT (s : KernelState) : List Nat → List COp × KernelState × Option UsbErr
  | [] => ([], s, none)
  | i :: rest =>
    match claimOne s i with
    | (t, s1, some e) => (t, s1, some e)
    | (t, s1, none) =>
      let r := claimInterfacesT s1 rest
      (t ++ r.1, r.2)

/-- One iteration of the `Drop for USBDevice` loop: query
`kernel_driver_active(i)` (errors swallowed by `if let Ok`); if it reports
an active kernel driver, call `attach_kernel_driver(i)` and ignore the
result (`let _ =`).  Returns the new state and the list of interfaces on
which `attach_kernel_driver` was invoked (empty or singleton). -/
def teardownOne (s : KernelState) (i : Nat) : KernelState × List Nat :=
  match kernelDriverActive s i with
  | .error _ => (s, [])
  | .ok b =>
    if b then
      match attachKernelDriver s i with
      | .error _ => (s, [i])
      | .ok s1 => (s1, [i])
    else (s, [])

/-- The `Drop for USBDevice` body: iterate over the keys of the
`interfaces` topology map (HashMap key order is unspecified, so the
enumeration is a parameter) and best-effort reattach.  Returns the final
state and the concatenated list of `attach_kernel_driver` calls. -/
def teardown (s : KernelState) : List Nat → KernelState × List Nat
  | [] => (s, [])
  | i :: rest =>
    let r1 := teardownOne s i
    let r := teardown r1.1 rest
    (r.1, r1.2 ++ r.2)

/-! ## Handshake (`main` lines 72–84 and `send_to_device`) -/

/-- The `MessageDevice` struct of the source (`timeout` in milliseconds). -/
structure MessageDevice where
  request_type : Nat
  request : Nat
  value : Nat
  interface : Nat
  payload : List Nat
  timeout_ms : Nat
deriving DecidableEq, Repr

/-- The `magic_packet` literal built in `main`. -/
def magic_packet : MessageDevice :=
  { request_type := 0x21
    request := 0x09
    value := 0x0202
    interface := 2
    payload := [0x02, 0x01]
    timeout_ms := 1000 }

/-- Observable transport/timing actions of the handshake phase. -/
inductive HSEvent
  | sleepMs (ms : Nat)
  | writeControl (request_type request value interface : Nat)
      (payload : List Nat) (timeout_ms : Nat)
deriving DecidableEq, Repr

/-- `send_to_device`: a single `write_control` built from the message's
fields. -/
def send_to_device (m : MessageDevice) : List HSEvent :=
  [.writeControl m.request_type m.request m.value m.interface m.payload m.timeout_ms]

/-- The handshake phase of `main`: sleep 500 ms, send the magic packet,
sleep 500 ms. -/
def handshakeEvents : List HSEvent :=
  [.sleepMs 500] ++ send_to_device magic_packet ++ [.sleepMs 500]

def isWriteControl : HSEvent → Bool
  | .writeControl _ _ _ _ _ _ => true
  | _ => false

/-- Control point reached after the handshake. -/
inductive StartupPhase
  | polling
deriving DecidableEq, Repr

/-- `let _ = send_to_device(&mut usb_device.handle, &magic_packet);` —
the transfer's result is discarded and `main` proceeds to the polling
loop in either case. -/
def afterHandshake (transferResult : Except UsbErr Unit) : StartupPhase :=
  match transferResult with
  | .ok _ => .polling
  | .error _ => .polling

/-! ## `read_device` -/

/-- The `read_device` loop over `interface.endpoints_in`: `res` starts as
`Ok` with zero bytes read (`buffer[..0]` is empty); each endpoint's
`read_interrupt` result overwrites `res`; the first `Ok` returns
immediately with the bytes read; after the loop the final `res` is
propagated with `?`.  `envread ep` is the transport's answer for endpoint
`ep` (the bytes written into the buffer, or the error). -/
def readLoop (envread : Nat → Except UsbErr (List Nat)) (number : Nat) :
    List Nat → Except UsbErr (List Nat) → Except UsbErr (Nat × List Nat)
  | [], res =>
    match res with
    | .ok bs => .ok (number, bs)
    | .error e => .error e
  | ep :: rest, _ =>
    match envread ep with
    | .ok bs => .ok (number, bs)
    | .error e => readLoop envread number rest (.error e)

/-- `read_device`. -/
def readDevice (envread : Nat → Except UsbErr (List Nat)) (i : InterfaceInfo) :
    Except UsbErr (Nat × List Nat) :=
  readLoop envread i.number i.endpoints_in (.ok [])

/-- Whether a `read_device` result falls into the catch-all
`Err(e)` arm of `main`'s match (fatal), as opposed to `Ok` or
`Err(rusb::Error::Timeout)`. -/
def isFatal : Except UsbErr (Nat × List Nat) → Bool
  | .error (.other _) => true
  | _ => false

/-! ## The polling loop of `main`

The loop body at iteration `k` reads interface 1 (buttons) and then
interface 2 (tablet), each via `interfaces.get(&n).unwrap()`.  `env k n`
is the transport oracle for the `read_device` call on interface `n` during
iteration `k`; `running k` is the cancellation flag value observed by the
check heading iteration `k`.  Fuel bounds the unrolling of the `while`. -/

/-- Observable outputs of the loop body (`println!` on data and on a fatal
error). -/
inductive Event
  | dataOut (id : Nat) (bytes : List Nat)
  | fatalOut (code : Nat)
deriving DecidableEq, Repr

/-- How the loop ended. -/
inductive LoopExit
  | flagCleared
  | fatalBreak (code : Nat)
  | panicked
  | fuelOut
deriving DecidableEq, Repr

/-- Second half of a loop iteration: unwrap the map entry for interface 2
(`None` panics), read it, and dispatch as `main` does; `ev1` are the
events already produced by the first half, `rest` the result of the
remaining iterations. -/
def pollSecond (look2 : Option InterfaceInfo)
    (read2 : InterfaceInfo → Except UsbErr (Nat × List Nat))
    (ev1 : List Event) (rest : List Event × LoopExit) : List Event × LoopExit :=
  match look2 with
  | none => (ev1, .panicked)
  | some info2 =>
    match read2 info2 with
    | .ok (id, bs) => (ev1 ++ .dataOut id bs :: rest.1, rest.2)
    | .error .timeout => (ev1 ++ rest.1, rest.2)
    | .error (.other e) => (ev1 ++ [.fatalOut e], .fatalBreak e)

/-- The `while running.load() { … }` loop of `main`, with `fuel` bounding
the number of unrolled iterations and `k` the current iteration index. -/
def pollLoop (env : Nat → Nat → Nat → Except UsbErr (List Nat))
    (running : Nat → Bool) (m : IfaceMap) : Nat → Nat → List Event × LoopExit
  | 0, _ => ([], .fuelOut)
  | fuel + 1, k =>
    if running k then
      match mapLookup m 1 with
      | none => ([], .panicked)
      | some info1 =>
        match readDevice (env k 1) info1 with
        | .ok (id, bs) =>
          pollSecond (mapLookup m 2) (readDevice (env k 2))
            [.dataOut id bs] (pollLoop env running m fuel (k + 1))
        | .error .timeout =>
          pollSecond (mapLookup m 2) (readDevice (env k 2))
            [] (pollLoop env running m fuel (k + 1))
        | .error (.other e) => ([.fatalOut e], .fatalBreak e)
    else ([], .flagCleared)

/-- How the process ends, as determined by the loop outcome: a panic
aborts, every other loop exit falls through to `main`'s final `Ok(())`,
i.e. exit status zero. -/
inductive ProcessOutcome
  | success
  | panicAbort
deriving DecidableEq, Repr

/-- After the loop, `main` unconditionally returns `Ok(())` (the fatal
branch only prints and `break`s), so only a panic escapes. -/
def mainExit (r : List Event × LoopExit) : ProcessOutcome :=
  match r.2 with
  | .panicked => .panicAbort
  | _ => .success

/-! ## Concrete inputs used in counterexamples and witnesses -/

/-- Kernel state with a kernel driver active on every interface and a
fault-free transport. -/
def s0 : KernelState :=
  ⟨fun _ => true, fun _ => false, fun _ => false, fun _ => false, fun _ => false⟩

/-- Kernel state whose only active kernel driver is on interface 1. -/
def sA : KernelState :=
  ⟨fun j => j == 1, fun _ => false, fun _ => false, fun _ => false, fun _ => false⟩

/-- Kernel state with no active kernel driver anywhere. -/
def sB : KernelState :=
  ⟨fun _ => false, fun _ => false, fun _ => false, fun _ => false, fun _ => false⟩

/-- Kernel state where every driver is active and `claim_interface(1)`
fails. -/
def sF : KernelState :=
  ⟨fun _ => true, fun _ => false, fun _ => false, fun _ => false, fun j => j == 1⟩

/-- A configuration whose interface 1 has two alternate settings: the
first declares IN endpoint 0x81, the second IN endpoint 0x82. -/
def cfgAlt : List ConfigInterface :=
  [⟨1, [⟨[⟨0x81⟩]⟩, ⟨[⟨0x82⟩]⟩]⟩]

/-- The device shape from the spec: interface 0 (mass storage, one IN one
OUT endpoint), interface 1 (buttons, IN 0x83), interface 2 (tablet,
IN 0x84), one alternate setting each. -/
def cfgStd : List ConfigInterface :=
  [⟨0, [⟨[⟨0x81⟩, ⟨0x02⟩]⟩]⟩, ⟨1, [⟨[⟨0x83⟩]⟩]⟩, ⟨2, [⟨[⟨0x84⟩]⟩]⟩]

/-- The topology map `open_device` builds for `cfgStd`. -/
def mStd : IfaceMap := openDeviceTopology cfgStd

/-- Transport in which every interrupt read fails with a non-timeout
error of code 9. -/
def envFatal : Nat → Nat → Nat → Except UsbErr (List Nat) :=
  fun _ _ _ => .error (.other 9)

/-- Transport in which interface 2's reads fail with a non-timeout error
of code 7 and everything else times out. -/
def envFatal2 : Nat → Nat → Nat → Except UsbErr (List Nat) :=
  fun _ i _ => if i = 2 then .error (.other 7) else .error .timeout

/-- Transport in which every interrupt read times out. -/
def envTimeout : Nat → Nat → Nat → Except UsbErr (List Nat) :=
  fun _ _ _ => .error .timeout

/-- Per-endpoint read results: endpoint 5 fails fatally (code 9), every
other endpoint times out. -/
def envMask : Nat → Except UsbErr (List Nat) :=
  fun ep => if ep = 5 then .error (.other 9) else .error .timeout

/-- Per-endpoint read results in which every endpoint times out. -/
def envTO1 : Nat → Except UsbErr (List Nat) :=
  fun _ => .error .timeout

/-- A topology map missing interface 1 (declaring only interface 2). -/
def mNo1 : IfaceMap := [(2, ⟨2, [0x84], []⟩)]

/-- A topology map missing interface 2 (declaring only interface 1). -/
def mNo2 : IfaceMap := [(1, ⟨1, [0x83], []⟩)]

/-- Cancellation flag that is never set. -/
def runTrue : Nat → Bool := fun _ => true

/-- Cancellation flag observed `true` at iteration 0 and `false` from
iteration 1 on (flag flipped during the first iteration). -/
def runOnce : Nat → Bool := fun k => k == 0

/-! ## Topology lemmas -/

theorem lastSetting_concat (ds : List AltSetting) (d : AltSetting) :
    lastSetting (ds ++ [d]) = d := by
  induction ds with
  | nil => rfl
  | cons a rest ih =>
    cases rest with
    | nil => rfl
    | cons b rest2 => simpa [lastSetting] using ih

theorem classifyEndpoints_eq (eps : List EndpointDescriptor) :
    classifyEndpoints eps =
      ((eps.filter (fun e => e.isIn)).map (fun e => e.address),
       (eps.filter (fun e => !e.isIn)).map (fun e => e.address)) := by
  induction eps with
  | nil => rfl
  | cons e rest ih =>
    by_cases h : e.isIn = true <;>
      simp [classifyEndpoints, ih, List.filter_cons, h]

theorem mapLookup_insert_self (m : IfaceMap) (k : Nat) (v : InterfaceInfo) :
    mapLookup (mapInsert m k v) k = some v := by
  simp [mapInsert, mapLookup]

theorem mapLookup_insert_ne (m : IfaceMap) (k : Nat) (v : InterfaceInfo) (k0 : Nat)
    (h : k ≠ k0) : mapLookup (mapInsert m k v) k0 = mapLookup m k0 := by
  simp [mapInsert, mapLookup, h]

theorem insertDescriptors_lookup_ne (n : Nat) (ds : List AltSetting) (m : IfaceMap)
    (k : Nat) (h : n ≠ k) :
    mapLookup (insertDescriptors n m ds) k = mapLookup m k := by
  induction ds generalizing m with
  | nil => rfl
  | cons d rest ih =>
    rw [insertDescriptors, ih, mapLookup_insert_ne _ _ _ _ h]

theorem insertDescriptors_lookup_self (n : Nat) (ds : List AltSetting) (m : IfaceMap)
    (h : ds ≠ []) :
    mapLookup (insertDescriptors n m ds) n = some (lastInfo n ds) := by
  induction ds generalizing m with
  | nil => exact absurd rfl h
  | cons d rest ih =>
    cases rest with
    | nil =>
      simp [insertDescriptors, lastInfo, lastSetting, mapLookup_insert_self]
    | cons d2 rest2 =>
      rw [insertDescriptors, ih _ (by simp)]
      simp [lastInfo, lastSetting]

theorem buildTopology_lookup_not_mem (cfg : List ConfigInterface) (m : IfaceMap)
    (k : Nat) (h : ∀ iface ∈ cfg, iface.number ≠ k) :
    mapLookup (buildTopology m cfg) k = mapLookup m k := by
  induction cfg generalizing m with
  | nil => rfl
  | cons c rest ih =>
    rw [buildTopology, ih _ (fun i hi => h i (List.mem_cons_of_mem _ hi)),
      insertDescriptors_lookup_ne _ _ _ _ (h c (List.mem_cons_self _ _))]

theorem buildTopology_lookup_mem (cfg : List ConfigInterface) (m : IfaceMap)
    (hn : (cfg.map ConfigInterface.number).Nodup)
    (iface : ConfigInterface) (hm : iface ∈ cfg) (hd : iface.descriptors ≠ []) :
    mapLookup (buildTopology m cfg) iface.number =
      some (lastInfo iface.number iface.descriptors) := by
  induction cfg generalizing m with
  | nil => cases hm
  | cons c rest ih =>
    simp only [List.map_cons, List.nodup_cons] at hn
    rcases List.mem_cons.mp hm with rfl | hmem
    · rw [buildTopology, buildTopology_lookup_not_mem _ _ _
        (fun i hi heq =>
          hn.1 (by rw [← heq]; exact List.mem_map_of_mem ConfigInterface.number hi)),
        insertDescriptors_lookup_self _ _ _ hd]
    · exact ih _ hn.2 hmem

theorem openDeviceTopology_lookup (cfg : List ConfigInterface)
    (hn : (cfg.map ConfigInterface.number).Nodup)
    (iface : ConfigInterface) (hm : iface ∈ cfg) (hd : iface.descriptors ≠ []) :
    mapLookup (openDeviceTopology cfg) iface.number =
      some (lastInfo iface.number iface.descriptors) :=
  buildTopology_lookup_mem cfg [] hn iface hm hd

theorem mem_classify_iff (eps : List EndpointDescriptor) (ep : EndpointDescriptor)
    (hm : ep ∈ eps) :
    (ep.address ∈ (classifyEndpoints eps).1 ↔ ep.isIn = true) ∧
    (ep.address ∈ (classifyEndpoints eps).2 ↔ ep.isIn = false) := by
  rw [classifyEndpoints_eq]
  constructor
  · simp only [List.mem_map, List.mem_filter]
    constructor
    · rintro ⟨e, ⟨_, hin⟩, haddr⟩
      have : e.isIn = ep.isIn := by
        unfold EndpointDescriptor.isIn; rw [haddr]
      rw [← this]; exact hin
    · intro h; exact ⟨ep, ⟨hm, h⟩, rfl⟩
  · simp only [List.mem_map, List.mem_filter, Bool.not_eq_true']
    constructor
    · rintro ⟨e, ⟨_, hin⟩, haddr⟩
      have : e.isIn = ep.isIn := by
        unfold EndpointDescriptor.isIn; rw [haddr]
      rw [← this]; exact hin
    · intro h; exact ⟨ep, ⟨hm, h⟩, rfl⟩

/-! ## Lifecycle lemmas -/

theorem claimOne_claimed_mono (s : KernelState) (i j : Nat) (h : s.claimed j = true) :
    ((claimOne s i).2.1).claimed j = true := by
  unfold claimOne
  split_ifs <;>
    simp only [claimedState, detachedState] <;>
    first
      | exact h
      | (split <;> simp [h])

theorem claimOne_ok_claimed (s : KernelState) (i : Nat)
    (h : (claimOne s i).2.2 = none) : ((claimOne s i).2.1).claimed i = true := by
  unfold claimOne at h ⊢
  split_ifs at h ⊢ <;> simp_all [claimedState]

theorem claimInterfacesT_claimed_mono (s : KernelState) (l : List Nat) (j : Nat)
    (h : s.claimed j = true) : ((claimInterfacesT s l).2.1).claimed j = true := by
  induction l generalizing s with
  | nil => exact h
  | cons i rest ih =>
    rw [claimInterfacesT]
    rcases hc : claimOne s i with ⟨t, s1, r⟩
    have hs1 : s1.claimed j = true := by
      have := claimOne_claimed_mono s i j h
      rw [hc] at this; exact this
    cases r with
    | some e => exact hs1
    | none => exact ih s1 hs1

theorem claimInterfacesT_ok_claimed (s : KernelState) (l : List Nat)
    (h : (claimInterfacesT s l).2.2 = none) :
    ∀ j ∈ l, ((claimInterfacesT s l).2.1).claimed j = true := by
  induction l generalizing s with
  | nil => intro j hj; cases hj
  | cons i rest ih =>
    rw [claimInterfacesT] at h ⊢
    rcases hc : claimOne s i with ⟨t, s1, r⟩
    rw [hc] at h
    cases r with
    | some e => simp at h
    | none =>
      simp only at h ⊢
      intro j hj
      rcases List.mem_cons.mp hj with rfl | hmem
      · have hs1 : s1.claimed j = true := by
          have := claimOne_ok_claimed s j (by rw [hc])
          rw [hc] at this; exact this
        exact claimInterfacesT_claimed_mono s1 rest j hs1
      · exact ih s1 h j hmem

theorem claimInterfacesT_append_ok (s : KernelState) (l1 l2 : List Nat)
    (h : (claimInterfacesT s l1).2.2 = none) :
    claimInterfacesT s (l1 ++ l2) =
      ((claimInterfacesT s l1).1 ++
        (claimInterfacesT (claimInterfacesT s l1).2.1 l2).1,
       (claimInterfacesT (claimInterfacesT s l1).2.1 l2).2) := by
  induction l1 generalizing s with
  | nil => simp [claimInterfacesT]
  | cons i rest ih =>
    rw [List.cons_append, claimInterfacesT]
    conv_rhs => rw [claimInterfacesT]
    rw [claimInterfacesT] at h
    rcases hc : claimOne s i with ⟨t, s1, r⟩
    rw [hc] at h
    cases r with
    | some e => simp at h
    | none =>
      simp only at h ⊢
      rw [ih s1 h, List.append_assoc]

/-! ## Read and poll-loop lemmas -/

theorem readLoop_last_error (envread : Nat → Except UsbErr (List Nat)) (number : Nat)
    (eps0 : List Nat) (epLast : Nat) (res0 : Except UsbErr (List Nat))
    (hall : ∀ ep ∈ eps0, ∃ er, envread ep = .error er) (e : UsbErr)
    (hlast : envread epLast = .error e) :
    readLoop envread number (eps0 ++ [epLast]) res0 = .error e := by
  induction eps0 generalizing res0 with
  | nil => simp [readLoop, hlast]
  | cons ep rest ih =>
    obtain ⟨er, her⟩ := hall ep (List.mem_cons_self _ _)
    rw [List.cons_append, readLoop, her]
    exact ih _ (fun p hp => hall p (List.mem_cons_of_mem _ hp))

theorem pollLoop_flag_cleared (env : Nat → Nat → Nat → Except UsbErr (List Nat))
    (running : Nat → Bool) (m : IfaceMap) (fuel k : Nat) (h : running k = false) :
    pollLoop env running m (fuel + 1) k = ([], .flagCleared) := by
  simp [pollLoop, h]

theorem not_fatal_shape (r : Except UsbErr (Nat × List Nat)) (h : isFatal r = false) :
    (∃ v, r = .ok v) ∨ r = .error .timeout := by
  cases r with
  | ok v => exact .inl ⟨v, rfl⟩
  | error e =>
    cases e with
    | timeout => exact .inr rfl
    | other c => exact absurd h (by simp [isFatal])

theorem pollSecond_snd_ne_panicked (look2 : Option InterfaceInfo) (i2 : InterfaceInfo)
    (h2 : look2 = some i2) (read2 : InterfaceInfo → Except UsbErr (Nat × List Nat))
    (ev1 : List Event) (rest : List Event × LoopExit)
    (hrest : rest.2 ≠ .panicked) :
    (pollSecond look2 read2 ev1 rest).2 ≠ .panicked := by
  subst h2
  unfold pollSecond
  cases hx : read2 i2 with
  | ok v => obtain ⟨id, bs⟩ := v; simp only [hx]; simpa using hrest
  | error e =>
    cases e with
    | timeout => simp only [hx]; simpa using hrest
    | other c => simp [hx]

theorem pollLoop_ne_panicked (env : Nat → Nat → Nat → Except UsbErr (List Nat))
    (running : Nat → Bool) (m : IfaceMap) (i1 i2 : InterfaceInfo)
    (h1 : mapLookup m 1 = some i1) (h2 : mapLookup m 2 = some i2) :
    ∀ fuel k, (pollLoop env running m fuel k).2 ≠ .panicked := by
  intro fuel
  induction fuel with
  | zero => intro k; simp [pollLoop]
  | succ n ih =>
    intro k
    rw [pollLoop]
    by_cases hr : running k = true
    · rw [if_pos hr, h1]
      dsimp only
      cases hx : readDevice (env k 1) i1 with
      | ok v =>
        obtain ⟨id, bs⟩ := v
        exact pollSecond_snd_ne_panicked _ i2 h2 _ _ _ (ih (k + 1))
      | error e =>
        cases e with
        | timeout => exact pollSecond_snd_ne_panicked _ i2 h2 _ _ _ (ih (k + 1))
        | other c => simp
    · rw [if_neg hr]; simp

/-! ## Claim theorems -/

/-- Claim C1 (code-bug evidence).  Evaluates `claim_interfaces` followed by
the `Drop` teardown at a device whose topology declares interfaces
0, 1, 2, 3, all with active kernel drivers, of which `main`'s list
`[0, 1, 2]` is claimed: the claims succeed (each driver detached, each
interface claimed), yet teardown's `attach_kernel_driver` calls are
exactly `[3]` — none of the three interfaces whose drivers were active at
claim time is reattached (the `Drop` keys off the *live*
`kernel_driver_active` state, which is `false` after detach), and the
never-claimed interface 3 *is* touched because `Drop` iterates all
topology keys.  This contradicts the claimed teardown invariant. -/
theorem drop_teardown_eval :
    (claimInterfacesT s0 [0, 1, 2]).2.2 = none
    ∧ s0.kernelActive 0 = true ∧ s0.kernelActive 1 = true ∧ s0.kernelActive 2 = true
    ∧ ((claimInterfacesT s0 [0, 1, 2]).2.1).claimed 3 = false
    ∧ (teardown (claimInterfacesT s0 [0, 1, 2]).2.1 [0, 1, 2, 3]).2 = [3] :=
  ⟨rfl, rfl, rfl, rfl, rfl, rfl⟩

/-- Claim C2 (counterexample).  A fatal (non-timeout) transport error on
interface 1's read at iteration 0 ends the loop at once — but `main` then
falls through to `Ok(())`: the process outcome is `success` (exit status
zero), not a propagated error, refuting "the error is propagated to the
caller, so the process exits with a non-zero status". -/
theorem fatal_exit_status_cex :
    mapLookup mStd 1 = some ⟨1, [0x83], []⟩
    ∧ readDevice (envFatal 0 1) ⟨1, [0x83], []⟩ = .error (.other 9)
    ∧ pollLoop envFatal runTrue mStd 5 0 = ([.fatalOut 9], .fatalBreak 9)
    ∧ mainExit (pollLoop envFatal runTrue mStd 5 0) = .success :=
  ⟨rfl, rfl, rfl, rfl⟩

/-- Claim C2 (amended).  On a fatal (neither data nor timeout) read
outcome on either watched interface, the whole polling loop terminates
immediately — the remaining read of that iteration and all later
iterations are skipped — and the human-readable cause is printed
(`fatalOut`); but the error is *not* propagated: `main` returns `Ok(())`,
so the process exits with status zero (teardown still runs on scope
exit). -/
theorem fatal_terminates_loop_without_propagation :
    (∀ (env : Nat → Nat → Nat → Except UsbErr (List Nat)) (running : Nat → Bool)
       (m : IfaceMap) (fuel k : Nat) (i1 : InterfaceInfo) (e : Nat),
      running k = true → mapLookup m 1 = some i1 →
      readDevice (env k 1) i1 = .error (.other e) →
      pollLoop env running m (fuel + 1) k = ([.fatalOut e], .fatalBreak e)
      ∧ mainExit (pollLoop env running m (fuel + 1) k) = .success)
    ∧ (∀ (env : Nat → Nat → Nat → Except UsbErr (List Nat)) (running : Nat → Bool)
       (m : IfaceMap) (fuel k : Nat) (i1 i2 : InterfaceInfo) (e : Nat),
      running k = true → mapLookup m 1 = some i1 →
      readDevice (env k 1) i1 = .error .timeout →
      mapLookup m 2 = some i2 →
      readDevice (env k 2) i2 = .error (.other e) →
      pollLoop env running m (fuel + 1) k = ([.fatalOut e], .fatalBreak e)
      ∧ mainExit (pollLoop env running m (fuel + 1) k) = .success) := by
  constructor
  · intro env running m fuel k i1 e hr h1 hread
    have hL : pollLoop env running m (fuel + 1) k = ([.fatalOut e], .fatalBreak e) := by
      rw [pollLoop, if_pos hr, h1]
      dsimp only
      rw [hread]
    exact ⟨hL, by rw [hL]; rfl⟩
  · intro env running m fuel k i1 i2 e hr h1 hread1 h2 hread2
    have hL : pollLoop env running m (fuel + 1) k = ([.fatalOut e], .fatalBreak e) := by
      rw [pollLoop, if_pos hr, h1]
      dsimp only
      rw [hread1]
      unfold pollSecond
      rw [h2]
      dsimp only
      rw [hread2]
      simp
    exact ⟨hL, by rw [hL]; rfl⟩

/-- Witness for the amended C2 theorem at concrete transports: a fatal
error on interface 1 (code 9), and a timeout on interface 1 followed by a
fatal error on interface 2 (code 7); in both runs the loop breaks with the
cause printed and the process outcome is `success`. -/
theorem fatal_terminates_loop_without_propagation_witness :
    (pollLoop envFatal runTrue mStd 5 0 = ([.fatalOut 9], .fatalBreak 9)
      ∧ mainExit (pollLoop envFatal runTrue mStd 5 0) = .success)
    ∧ (pollLoop envFatal2 runTrue mStd 5 0 = ([.fatalOut 7], .fatalBreak 7)
      ∧ mainExit (pollLoop envFatal2 runTrue mStd 5 0) = .success) :=
  ⟨fatal_terminates_loop_without_propagation.1 envFatal runTrue mStd 4 0
      ⟨1, [0x83], []⟩ 9 rfl rfl rfl,
   fatal_terminates_loop_without_propagation.2 envFatal2 runTrue mStd 4 0
      ⟨1, [0x83], []⟩ ⟨2, [0x84], []⟩ 7 rfl rfl rfl rfl rfl⟩

/-- Claim C3.  The handshake phase issues exactly one control transfer,
with requestType 0x21, request 0x09, value 0x0202, index 2, payload
`[0x02, 0x01]` and a 1000 ms timeout, preceded and followed by a 500 ms
settle delay; and whatever the transfer's result, `main` proceeds to the
polling phase (the result is discarded by `let _ = …`). -/
theorem handshake_single_transfer_tolerant :
    handshakeEvents =
      [.sleepMs 500, .writeControl 0x21 0x09 0x0202 2 [0x02, 0x01] 1000, .sleepMs 500]
    ∧ (handshakeEvents.filter isWriteControl).length = 1
    ∧ ∀ r : Except UsbErr Unit, afterHandshake r = .polling := by
  refine ⟨rfl, rfl, fun r => ?_⟩
  cases r <;> rfl

/-- Claim C4 (counterexample to "records that fact").  Two runs of
`claim_interfaces` on `[1]`, one from a state where interface 1 had an
active kernel driver (`sA`) and one where it did not (`sB`), end in
*identical* post-states and return values: the function keeps no record of
whether a driver was active at claim time (which is why the `Drop`
teardown cannot restore it). -/
theorem claim_no_record_cex :
    sA.kernelActive 1 = true ∧ sB.kernelActive 1 = false
    ∧ (claimInterfacesT sA [1]).2 = (claimInterfacesT sB [1]).2 := by
  refine ⟨rfl, rfl, ?_⟩
  have hA : (claimInterfacesT sA [1]).2 = (claimedState (detachedState sA 1) 1, none) := rfl
  have hB : (claimInterfacesT sB [1]).2 = (claimedState sB 1, none) := rfl
  rw [hA, hB]
  refine Prod.ext ?_ rfl
  simp only [claimedState, detachedState, sA, sB]
  refine KernelState.ext ?_ rfl rfl rfl rfl
  funext j
  by_cases hj : j = 1 <;> simp [hj]

/-- Claim C4 (amended).  `claim_interfaces` processes the caller-supplied
prefix in order (its trace comes first), and a failing step on interface
`i` aborts the whole call with that error, never touching the remaining
interfaces; every interface of the successfully processed prefix is
claimed and remains claimed through the failing step (no rollback).  What
the source does *not* do is record which interfaces had an active kernel
driver (see the counterexample). -/
theorem claimInterfaces_order_abort_no_rollback (s : KernelState) (pre : List Nat)
    (i : Nat) (rest : List Nat) (e : UsbErr)
    (h1 : (claimInterfacesT s pre).2.2 = none)
    (h2 : (claimOne (claimInterfacesT s pre).2.1 i).2.2 = some e) :
    claimInterfacesT s (pre ++ i :: rest) =
      ((claimInterfacesT s pre).1 ++ (claimOne (claimInterfacesT s pre).2.1 i).1,
       (claimOne (claimInterfacesT s pre).2.1 i).2.1, some e)
    ∧ (∀ j ∈ pre, ((claimInterfacesT s pre).2.1).claimed j = true)
    ∧ ∀ j, ((claimInterfacesT s pre).2.1).claimed j = true →
        ((claimOne (claimInterfacesT s pre).2.1 i).2.1).claimed j = true := by
  refine ⟨?_, claimInterfacesT_ok_claimed s pre h1,
    fun j hj => claimOne_claimed_mono _ i j hj⟩
  rw [claimInterfacesT_append_ok s pre (i :: rest) h1]
  have hstep : claimInterfacesT ((claimInterfacesT s pre).2.1) (i :: rest)
      = ((claimOne ((claimInterfacesT s pre).2.1) i).1,
         (claimOne ((claimInterfacesT s pre).2.1) i).2.1, some e) := by
    rw [claimInterfacesT]
    rcases hc : claimOne ((claimInterfacesT s pre).2.1) i with ⟨t, s2, r⟩
    rw [hc] at h2
    have hr : r = some e := h2
    subst hr
    rfl
  rw [hstep]

/-- Witness for the amended C4 theorem: claiming `[0, 1, 2]` from a state
where every kernel driver is active and `claim_interface(1)` fails —
interface 0 is processed first and stays claimed, the call aborts with the
claim error, and interface 2 is never touched. -/
theorem claimInterfaces_order_abort_no_rollback_witness :
    claimInterfacesT sF ([0] ++ 1 :: [2]) =
      ((claimInterfacesT sF [0]).1 ++ (claimOne (claimInterfacesT sF [0]).2.1 1).1,
       (claimOne (claimInterfacesT sF [0]).2.1 1).2.1, some (.other 3))
    ∧ ((claimInterfacesT sF [0]).2.1).claimed 0 = true
    ∧ ((claimOne (claimInterfacesT sF [0]).2.1 1).2.1).claimed 0 = true := by
  have h := claimInterfaces_order_abort_no_rollback sF [0] 1 [2] (.other 3) rfl rfl
  exact ⟨h.1, h.2.1 0 (List.mem_singleton.mpr rfl),
    h.2.2 0 (h.2.1 0 (List.mem_singleton.mpr rfl))⟩

/-- Claim C5 (counterexample).  For an interface with two alternate
settings — the first declaring IN endpoint 0x81, the second IN endpoint
0x82 — the topology entry is `⟨1, [0x82], []⟩`: declared endpoint 0x81,
of direction IN, appears in *neither* `endpoints_in` nor `endpoints_out`,
refuting "every endpoint appears in exactly one of the two sequences". -/
theorem topology_dropped_endpoint_cex :
    mapLookup (openDeviceTopology cfgAlt) 1 = some ⟨1, [0x82], []⟩
    ∧ EndpointDescriptor.isIn ⟨0x81⟩ = true
    ∧ (0x81 : Nat) ∉ ([0x82] : List Nat)
    ∧ (0x81 : Nat) ∉ ([] : List Nat) := by
  refine ⟨rfl, rfl, by decide, by decide⟩

/-- Claim C5 (amended).  For every interface declared in the active
configuration (with distinct interface numbers, each with at least one
descriptor, as rusb guarantees), the topology map contains an entry for
that interface number — with an explicit, possibly empty, list per
direction — and every endpoint *of the interface's final
alternate-setting descriptor* appears in exactly one of `endpoints_in` /
`endpoints_out` according to its declared direction (endpoints of earlier
alternate settings are dropped, see the counterexample).  The result is a
pure function of the descriptor contents. -/
theorem topology_entry_and_partition (cfg : List ConfigInterface)
    (hn : (cfg.map ConfigInterface.number).Nodup)
    (iface : ConfigInterface) (hm : iface ∈ cfg) (hd : iface.descriptors ≠ []) :
    mapLookup (openDeviceTopology cfg) iface.number =
      some (lastInfo iface.number iface.descriptors)
    ∧ ∀ ep ∈ (lastSetting iface.descriptors).endpoints,
        (ep.address ∈ (lastInfo iface.number iface.descriptors).endpoints_in
          ↔ ep.isIn = true)
        ∧ (ep.address ∈ (lastInfo iface.number iface.descriptors).endpoints_out
          ↔ ep.isIn = false) := by
  refine ⟨openDeviceTopology_lookup cfg hn iface hm hd, fun ep hep => ?_⟩
  simpa [lastInfo] using
    mem_classify_iff (lastSetting iface.descriptors).endpoints ep hep

/-- Witness for the amended C5 theorem on the standard device shape:
interface 0's entry exists, its IN endpoint 0x81 lands exactly in
`endpoints_in`, and its OUT endpoint 0x02 exactly in `endpoints_out`. -/
theorem topology_entry_and_partition_witness :
    mapLookup (openDeviceTopology cfgStd) 0 = some (lastInfo 0 [⟨[⟨0x81⟩, ⟨0x02⟩]⟩])
    ∧ (((0x81 : Nat) ∈ (lastInfo 0 [⟨[⟨0x81⟩, ⟨0x02⟩]⟩]).endpoints_in
          ↔ EndpointDescriptor.isIn ⟨0x81⟩ = true)
        ∧ ((0x81 : Nat) ∈ (lastInfo 0 [⟨[⟨0x81⟩, ⟨0x02⟩]⟩]).endpoints_out
          ↔ EndpointDescriptor.isIn ⟨0x81⟩ = false))
    ∧ (((0x02 : Nat) ∈ (lastInfo 0 [⟨[⟨0x81⟩, ⟨0x02⟩]⟩]).endpoints_in
          ↔ EndpointDescriptor.isIn ⟨0x02⟩ = true)
        ∧ ((0x02 : Nat) ∈ (lastInfo 0 [⟨[⟨0x81⟩, ⟨0x02⟩]⟩]).endpoints_out
          ↔ EndpointDescriptor.isIn ⟨0x02⟩ = false)) := by
  have h := topology_entry_and_partition cfgStd (by decide)
    ⟨0, [⟨[⟨0x81⟩, ⟨0x02⟩]⟩]⟩ (by decide) (by decide)
  exact ⟨h.1, h.2 ⟨0x81⟩ (by decide), h.2 ⟨0x02⟩ (by decide)⟩

/-- Claim C6.  If every input endpoint of an interface times out, the
`read_device` outcome for that interface is `Timeout`; and inside the
polling loop a timeout on both watched interfaces produces no output and
no exit — the loop state simply advances to the next iteration, so the
timeout never propagates past the poller. -/
theorem timeout_absorbed_loop_continues :
    (∀ (env : Nat → Except UsbErr (List Nat)) (i : InterfaceInfo)
       (eps0 : List Nat) (epLast : Nat),
      i.endpoints_in = eps0 ++ [epLast] →
      (∀ ep ∈ i.endpoints_in, env ep = .error .timeout) →
      readDevice env i = .error .timeout)
    ∧ (∀ (env : Nat → Nat → Nat → Except UsbErr (List Nat)) (running : Nat → Bool)
       (m : IfaceMap) (fuel k : Nat) (i1 i2 : InterfaceInfo),
      running k = true → mapLookup m 1 = some i1 → mapLookup m 2 = some i2 →
      readDevice (env k 1) i1 = .error .timeout →
      readDevice (env k 2) i2 = .error .timeout →
      pollLoop env running m (fuel + 1) k = pollLoop env running m fuel (k + 1)) := by
  constructor
  · intro env i eps0 epLast hsplit hall
    unfold readDevice
    rw [hsplit]
    refine readLoop_last_error env i.number eps0 epLast _ ?_ .timeout ?_
    · intro ep hep
      exact ⟨.timeout, hall ep (by rw [hsplit]; exact List.mem_append_left _ hep)⟩
    · exact hall epLast (by rw [hsplit]; exact List.mem_append_right _ (List.mem_singleton.mpr rfl))
  · intro env running m fuel k i1 i2 hr h1 h2 hr1 hr2
    rw [pollLoop, if_pos hr, h1]
    dsimp only
    rw [hr1]
    unfold pollSecond
    rw [h2]
    dsimp only
    rw [hr2]
    simp

/-- Witness for the C6 theorem: all-timeout transports on the standard
topology — `read_device` on interface 1 reports `Timeout`, and the loop
at iteration 0 just becomes the loop at iteration 1. -/
theorem timeout_absorbed_loop_continues_witness :
    readDevice envTO1 ⟨1, [0x83], []⟩ = .error .timeout
    ∧ pollLoop envTimeout runTrue mStd 4 0 = pollLoop envTimeout runTrue mStd 3 1 :=
  ⟨timeout_absorbed_loop_continues.1 envTO1 ⟨1, [0x83], []⟩ [] 0x83 rfl
      (fun _ _ => rfl),
   timeout_absorbed_loop_continues.2 envTimeout runTrue mStd 3 0
      ⟨1, [0x83], []⟩ ⟨2, [0x84], []⟩ rfl rfl rfl rfl rfl⟩

/-- Claim C7.  Once the cancellation flag reads `false`, the loop returns
`flagCleared` immediately with no further reads; and if the flag flips
during iteration `k` (observed `true` at `k`, `false` at `k + 1`) while
both reads of iteration `k` are non-fatal, the loop performs exactly that
one more iteration and then returns normally with `flagCleared`. -/
theorem cancellation_observed_within_one_iteration :
    (∀ (env : Nat → Nat → Nat → Except UsbErr (List Nat)) (running : Nat → Bool)
       (m : IfaceMap) (fuel k : Nat), running k = false →
      pollLoop env running m (fuel + 1) k = ([], .flagCleared))
    ∧ (∀ (env : Nat → Nat → Nat → Except UsbErr (List Nat)) (running : Nat → Bool)
       (m : IfaceMap) (fuel k : Nat) (i1 i2 : InterfaceInfo),
      running k = true → running (k + 1) = false →
      mapLookup m 1 = some i1 → mapLookup m 2 = some i2 →
      isFatal (readDevice (env k 1) i1) = false →
      isFatal (readDevice (env k 2) i2) = false →
      (pollLoop env running m (fuel + 2) k).2 = .flagCleared) := by
  constructor
  · intro env running m fuel k h
    exact pollLoop_flag_cleared env running m fuel k h
  · intro env running m fuel k i1 i2 hk hk1 h1 h2 hf1 hf2
    have hrest : pollLoop env running m (fuel + 1) (k + 1) = ([], .flagCleared) :=
      pollLoop_flag_cleared env running m fuel (k + 1) hk1
    have hsec : ∀ ev1 : List Event,
        (pollSecond (mapLookup m 2) (readDevice (env k 2)) ev1
          (pollLoop env running m (fuel + 1) (k + 1))).2 = .flagCleared := by
      intro ev1
      unfold pollSecond
      rw [h2]
      dsimp only
      rcases not_fatal_shape _ hf2 with ⟨⟨id, bs⟩, hv⟩ | ht
      · simp [hv, hrest]
      · simp [ht, hrest]
    rw [show fuel + 2 = fuel + 1 + 1 from rfl, pollLoop, if_pos hk, h1]
    dsimp only
    rcases not_fatal_shape _ hf1 with ⟨⟨id, bs⟩, hv⟩ | ht
    · rw [hv]; exact hsec _
    · rw [ht]; exact hsec _

/-- Witness for the C7 theorem: flag observed `true` at iteration 0 and
`false` from iteration 1, with all reads timing out — immediate normal
exit at iteration 1, and exit after exactly one iteration from
iteration 0. -/
theorem cancellation_observed_within_one_iteration_witness :
    pollLoop envTimeout runOnce mStd 4 1 = ([], .flagCleared)
    ∧ (pollLoop envTimeout runOnce mStd 4 0).2 = .flagCleared :=
  ⟨cancellation_observed_within_one_iteration.1 envTimeout runOnce mStd 3 1 rfl,
   cancellation_observed_within_one_iteration.2 envTimeout runOnce mStd 2 0
      ⟨1, [0x83], []⟩ ⟨2, [0x84], []⟩ rfl rfl rfl rfl rfl rfl⟩

/-- Claim C8.  For every device whose active configuration declares both
interface 1 and interface 2 (distinct interface numbers, at least one
descriptor each, as rusb guarantees), the `unwrap`s on the topology map
never panic, for any transport, flag and fuel; if interface 1 is absent
the first loop iteration panics at `get(&1).unwrap()`, and if interface 2
is absent it panics at `get(&2).unwrap()` once the interface-1 read
completes non-fatally. -/
theorem poll_requires_interfaces_one_two :
    (∀ (cfg : List ConfigInterface) (env : Nat → Nat → Nat → Except UsbErr (List Nat))
       (running : Nat → Bool) (fuel k : Nat),
      (cfg.map ConfigInterface.number).Nodup →
      (∃ ifc ∈ cfg, ifc.number = 1 ∧ ifc.descriptors ≠ []) →
      (∃ ifc ∈ cfg, ifc.number = 2 ∧ ifc.descriptors ≠ []) →
      (pollLoop env running (openDeviceTopology cfg) fuel k).2 ≠ .panicked)
    ∧ (∀ (m : IfaceMap) (env : Nat → Nat → Nat → Except UsbErr (List Nat))
       (running : Nat → Bool) (fuel : Nat),
      running 0 = true → mapLookup m 1 = none →
      pollLoop env running m (fuel + 1) 0 = ([], .panicked))
    ∧ (∀ (m : IfaceMap) (env : Nat → Nat → Nat → Except UsbErr (List Nat))
       (running : Nat → Bool) (fuel : Nat) (i1 : InterfaceInfo),
      running 0 = true → mapLookup m 1 = some i1 →
      readDevice (env 0 1) i1 = .error .timeout → mapLookup m 2 = none →
      (pollLoop env running m (fuel + 1) 0).2 = .panicked) := by
  refine ⟨?_, ?_, ?_⟩
  · intro cfg env running fuel k hn he1 he2
    obtain ⟨ifc1, hm1, hnum1, hd1⟩ := he1
    obtain ⟨ifc2, hm2, hnum2, hd2⟩ := he2
    have l1 := openDeviceTopology_lookup cfg hn ifc1 hm1 hd1
    have l2 := openDeviceTopology_lookup cfg hn ifc2 hm2 hd2
    rw [hnum1] at l1
    rw [hnum2] at l2
    exact pollLoop_ne_panicked env running _ _ _ l1 l2 fuel k
  · intro m env running fuel hr h1
    rw [pollLoop, if_pos hr, h1]
  · intro m env running fuel i1 hr h1 hread h2
    rw [pollLoop, if_pos hr, h1]
    dsimp only
    rw [hread]
    unfold pollSecond
    rw [h2]

/-- Witness for the C8 theorem: no panic on the standard topology with
both interfaces declared; an immediate panic when interface 1 is missing
from the map, and a panic after interface 1's timeout when interface 2 is
missing. -/
theorem poll_requires_interfaces_one_two_witness :
    (pollLoop envTimeout runTrue (openDeviceTopology cfgStd) 3 0).2 ≠ .panicked
    ∧ pollLoop envTimeout runTrue mNo1 3 0 = ([], .panicked)
    ∧ (pollLoop envTimeout runTrue mNo2 3 0).2 = .panicked :=
  ⟨poll_requires_interfaces_one_two.1 cfgStd envTimeout runTrue 3 0 (by decide)
      ⟨⟨1, [⟨[⟨0x83⟩]⟩]⟩, by decide, rfl, by decide⟩
      ⟨⟨2, [⟨[⟨0x84⟩]⟩]⟩, by decide, rfl, by decide⟩,
   poll_requires_interfaces_one_two.2.1 mNo1 envTimeout runTrue 2 rfl rfl,
   poll_requires_interfaces_one_two.2.2 mNo2 envTimeout runTrue 2
      ⟨1, [0x83], []⟩ rfl rfl rfl rfl⟩

/-- Claim C9.  `read_device` on an interface whose `endpoints_in` is empty
returns a successful zero-byte outcome `(number, [])`, not a timeout; and
when every endpoint errors, it returns the *last* endpoint's error,
discarding the errors of earlier endpoints (so an earlier fatal error is
masked by a final timeout — see the witness). -/
theorem readDevice_returns_last_outcome :
    (∀ (env : Nat → Except UsbErr (List Nat)) (i : InterfaceInfo),
      i.endpoints_in = [] → readDevice env i = .ok (i.number, []))
    ∧ (∀ (env : Nat → Except UsbErr (List Nat)) (i : InterfaceInfo)
       (eps0 : List Nat) (epLast : Nat) (e : UsbErr),
      i.endpoints_in = eps0 ++ [epLast] →
      (∀ ep ∈ eps0, ∃ er, env ep = .error er) →
      env epLast = .error e →
      readDevice env i = .error e) := by
  constructor
  · intro env i h
    unfold readDevice
    rw [h]
    rfl
  · intro env i eps0 epLast e hsplit hall hlast
    unfold readDevice
    rw [hsplit]
    exact readLoop_last_error env i.number eps0 epLast _ hall e hlast

/-- Witness for the C9 theorem: an empty-endpoint interface yields
`Ok (7, [])`; and on endpoints `[5, 6]` where endpoint 5 fails fatally
(code 9) and endpoint 6 times out, the result is `Timeout` — the fatal
error is masked. -/
theorem readDevice_returns_last_outcome_witness :
    readDevice envMask ⟨7, [], []⟩ = .ok (7, [])
    ∧ readDevice envMask ⟨7, [5, 6], []⟩ = .error .timeout :=
  ⟨readDevice_returns_last_outcome.1 envMask ⟨7, [], []⟩ rfl,
   readDevice_returns_last_outcome.2 envMask ⟨7, [5, 6], []⟩ [5] 6 .timeout rfl
      (fun ep hep => ⟨.other 9, by
        have : ep = 5 := List.mem_singleton.mp hep
        rw [this]; rfl⟩)
      rfl⟩

/-- Claim C10.  For an interface whose descriptor list is `ds ++ [d]`
(arbitrary earlier alternate settings, final setting `d`), the topology
entry under that interface number holds exactly the classification of
`d`'s endpoints; any address not among `d`'s endpoint addresses — in
particular every endpoint of an earlier alternate setting that does not
recur in `d` — appears in neither `endpoints_in` nor `endpoints_out`. -/
theorem topology_last_alt_wins (cfg : List ConfigInterface)
    (hn : (cfg.map ConfigInterface.number).Nodup)
    (iface : ConfigInterface) (hm : iface ∈ cfg)
    (ds : List AltSetting) (d : AltSetting)
    (hds : iface.descriptors = ds ++ [d]) :
    mapLookup (openDeviceTopology cfg) iface.number =
      some ⟨iface.number,
        (d.endpoints.filter fun e => e.isIn).map (fun e => e.address),
        (d.endpoints.filter fun e => !e.isIn).map (fun e => e.address)⟩
    ∧ ∀ a : Nat, a ∉ d.endpoints.map (fun e => e.address) →
        a ∉ (lastInfo iface.number iface.descriptors).endpoints_in
        ∧ a ∉ (lastInfo iface.number iface.descriptors).endpoints_out := by
  have hd : iface.descriptors ≠ [] := by
    rw [hds]; exact (List.append_ne_nil_of_right_ne_nil _ (by simp))
  have hlast : lastSetting iface.descriptors = d := by
    rw [hds, lastSetting_concat]
  constructor
  · rw [openDeviceTopology_lookup cfg hn iface hm hd]
    simp [lastInfo, hlast, classifyEndpoints_eq]
  · intro a ha
    simp only [lastInfo, hlast, classifyEndpoints_eq]
    constructor <;>
      · intro hmem
        obtain ⟨e2, he2, haddr⟩ := List.mem_map.mp hmem
        exact ha (haddr ▸ List.mem_map_of_mem _ (List.mem_of_mem_filter he2))

/-- Witness for the C10 theorem on `cfgAlt`: the entry for interface 1 is
built from the second alternate setting only, and the first setting's
endpoint 0x81 appears in neither direction list. -/
theorem topology_last_alt_wins_witness :
    mapLookup (openDeviceTopology cfgAlt) 1 =
      some ⟨1, [0x82], ([] : List Nat)⟩
    ∧ ((0x81 : Nat) ∉ (lastInfo 1 [⟨[⟨0x81⟩]⟩, ⟨[⟨0x82⟩]⟩]).endpoints_in
        ∧ (0x81 : Nat) ∉ (lastInfo 1 [⟨[⟨0x81⟩]⟩, ⟨[⟨0x82⟩]⟩]).endpoints_out) := by
  have h := topology_last_alt_wins cfgAlt (by decide)
    ⟨1, [⟨[⟨0x81⟩]⟩, ⟨[⟨0x82⟩]⟩]⟩ (by decide) [⟨[⟨0x81⟩]⟩] ⟨[⟨0x82⟩]⟩ rfl
  exact ⟨h.1, h.2 0x81 (by decide)⟩

end FreeTomate
